import Mathlib

/-!
Verification of the OSUKA-foresight frontend's remote job lifecycle
tracker, shallowly embedded from
`src/frontend/src/app/(dashboard)/discovery/page.tsx`,
`src/frontend/src/lib/api/osuka.ts` and
`src/frontend/src/lib/stores/notebook-columns-store.ts`.

The embedding models the React component's state as an explicit record,
the `poll` closure and the `handleRun` handler as explicit state
transformers, and the `useEffect` lifecycle (cancellation flag,
`setInterval`, cleanup) as a step relation on a tracker state that pairs
the page state with the polling session's `cancelled` flag and whether
the interval is still scheduled.
-/

namespace Osuka

/-- Translation string `t.osuka.logsStarting` (opaque to the tracker). -/
def logsStarting : String := "osuka.logsStarting"

/-- Translation string `t.osuka.logsRequestSent` (opaque to the tracker). -/
def logsRequestSent : String := "osuka.logsRequestSent"

/-- Translation string `t.osuka.logsResponseReceived` (opaque to the tracker). -/
def logsResponseReceived : String := "osuka.logsResponseReceived"

/-- Translation string `t.common.error`, the generic error fallback. -/
def commonError : String := "common.error"

/-- One product record of a run result (`osuka.ts`, `OsukaRunResponse.products`). -/
structure Product where
  brand_key : Option String
  url : String
  title : Option String
  snippet : Option String
  deriving DecidableEq, Repr

/-- `OsukaRunResponse` from `src/frontend/src/lib/api/osuka.ts`: the payload of a
completed run. Optional fields are `Option`s. -/
structure OsukaRunResponse where
  notebook_id : String
  sources_added : Nat
  table_note_id : String
  json_note_id : String
  chat_session_id : Option String
  products : List Product
  logs : Option (List String)
  markdown_table : Option String
  deriving DecidableEq, Repr

/-- `OsukaRunStatusResponse` from `osuka.ts`: one status poll's payload. The
`status` field is an open string (`'running' | 'completed' | 'failed' | string`). -/
structure OsukaRunStatusResponse where
  run_id : String
  status : String
  logs : List String
  result : Option OsukaRunResponse
  error : Option String
  deriving DecidableEq, Repr

/-- `RunState` from `page.tsx` lines 18-21: at most one of the optional
`response` / `error` fields is populated by any write in the component. -/
structure RunState where
  response : Option OsukaRunResponse
  error : Option String
  deriving DecidableEq, Repr

/-- The `useState` cells of `OsukaPage` (`page.tsx` lines 25-36) that the
tracker reads or writes, plus the controlled form inputs `handleRun` reads.
`debugOpen` is a render-only collapsible toggle and is omitted. -/
structure PageState where
  category : String
  market : String
  allowExternal : Bool
  preferPdfs : Bool
  preferredBrands : String
  maxTotal : String
  loading : Bool
  runState : RunState
  localLogs : List String
  runId : Option String
  runStatus : Option OsukaRunStatusResponse
  deriving DecidableEq, Repr

/-- The `useState` initial values of `OsukaPage` (`page.tsx` lines 25-36). -/
def initialPage : PageState :=
  { category := ""
    market := ""
    allowExternal := true
    preferPdfs := false
    preferredBrands := ""
    maxTotal := "10"
    loading := false
    runState := { response := none, error := none }
    localLogs := []
    runId := none
    runStatus := none }

/-- JavaScript `a || b` on an optional string: `undefined` and the empty
string are falsy, so both fall through to `b` (used for
`status.error || t.common.error` at line 57). -/
def jsOrString (a : Option String) (b : String) : String :=
  match a with
  | some s => if s = "" then b else s
  | none => b

/-- The message computed in a `catch` block from `err instanceof Error ?
err.message : t.common.error` (lines 63 and 111): the thrown value is
modelled as `some msg` when it is an `Error` carrying `msg`, `none`
otherwise. -/
def catchMessage (err : Option String) : String :=
  match err with
  | some msg => msg
  | none => commonError

/-- The tracker state of one polling session: the page state together with
the session's `cancelled` flag (line 43) and whether the `setInterval`
timer of line 70 is still scheduled. -/
structure TrackerState where
  page : PageState
  cancelled : Bool
  intervalActive : Bool
  deriving DecidableEq, Repr

/-- A run is in a terminal phase when a result or an error has been stored
in `runState`. -/
def isTerminal (s : PageState) : Bool :=
  s.runState.response.isSome || s.runState.error.isSome

/-- React re-runs the effect of lines 38-77 when `runId` changes; when the
poll set it to `null`, the previous session's cleanup (lines 73-76) runs -
setting `cancelled` and clearing the interval - and the new effect body
returns early at line 40. -/
def reconcile (ts : TrackerState) : TrackerState :=
  if ts.page.runId.isNone then { ts with cancelled := true, intervalActive := false } else ts

/-- The body of `poll` (lines 44-68) when the status fetch resolves
successfully, together with the effect reconciliation that follows a
`setRunId(null)`. Mirrors lines 47-60: bail out if cancelled, store the
snapshot, then the `completed && result` branch, then the `failed`
branch, otherwise continue. -/
def applyOk (ts : TrackerState) (status : OsukaRunStatusResponse) : TrackerState :=
  if ts.cancelled then ts
  else
    let page := { ts.page with runStatus := some status }
    if status.status = "completed" && status.result.isSome then
      reconcile { ts with page :=
        { page with runState := { response := status.result, error := none }, runId := none } }
    else if status.status = "failed" then
      reconcile { ts with page :=
        { page with
            runState := { response := none, error := some (jsOrString status.error commonError) }
            runId := none } }
    else
      { ts with page := page }

/-- The `catch` branch of `poll` (lines 61-67) together with the effect
reconciliation: if not cancelled, store the transport-derived error and
clear `runId`; `runStatus` is not touched. -/
def applyErr (ts : TrackerState) (err : Option String) : TrackerState :=
  if ts.cancelled then ts
  else
    reconcile { ts with page :=
      { ts.page with
          runState := { response := none, error := some (catchMessage err) }
          runId := none } }

/-- The effect cleanup (lines 73-76) run on its own, e.g. on navigation
away: set the cancellation flag and clear the interval. -/
def applyCleanup (ts : TrackerState) : TrackerState :=
  { ts with cancelled := true, intervalActive := false }

/-- The events a polling session reacts to: a status fetch resolving with a
payload, a status fetch rejecting with a thrown value, or the owning
effect being torn down. -/
inductive PollEvent where
  | ok (status : OsukaRunStatusResponse)
  | err (msg : Option String)
  | cleanup
  deriving DecidableEq, Repr

/-- One step of the polling session. -/
def step (ts : TrackerState) : PollEvent → TrackerState
  | .ok status => applyOk ts status
  | .err msg => applyErr ts msg
  | .cleanup => applyCleanup ts

/-- A whole session trace: the tracker state after a sequence of events. -/
def runTrace (ts : TrackerState) (es : List PollEvent) : TrackerState :=
  es.foldl step ts

/-- The observable phase of the run, as the spec's
`idle | submitting | polling | completed | failed` status. -/
inductive Phase where
  | idle
  | submitting
  | polling
  | completed
  | failed
  deriving DecidableEq, Repr

/-- The phase observable from the page state: a stored result means
`completed`, a stored error means `failed`, an active `runId` means
`polling`, `loading` means `submitting`, else `idle`. -/
def phaseOf (s : PageState) : Phase :=
  if s.runState.response.isSome then .completed
  else if s.runState.error.isSome then .failed
  else if s.runId.isSome then .polling
  else if s.loading then .submitting
  else .idle

/-- Rank of a phase in the order `idle < submitting < polling <
{completed, failed}`. -/
def phaseRank : Phase → Nat
  | .idle => 0
  | .submitting => 1
  | .polling => 2
  | .completed => 3
  | .failed => 3

/-- Session invariant: once the run is terminal, the session has been
stopped - the flag is set, the interval is cleared, and `runId` is null. -/
def SessionInv (ts : TrackerState) : Prop :=
  isTerminal ts.page = true →
    ts.cancelled = true ∧ ts.intervalActive = false ∧ ts.page.runId = none

instance (ts : TrackerState) : Decidable (SessionInv ts) := by
  unfold SessionInv; infer_instance

/-- A character JavaScript's `parseInt` skips as leading whitespace
(WhiteSpace and LineTerminator code points that fit the inputs here). -/
def jsIsSpace (c : Char) : Bool :=
  c = ' ' || c = '\t' || c = '\n' || c = '\r'

/-- Model of JavaScript `String.prototype.trim()`: drop whitespace from
both ends. -/
def jsTrim (s : String) : String :=
  ⟨((s.data.dropWhile jsIsSpace).reverse.dropWhile jsIsSpace).reverse⟩

/-- Model of `String.prototype.split(",")` over the character list: cut at
every comma, keeping empty pieces (splitting the empty string yields one
empty piece, as in JavaScript). -/
def splitComma : List Char → List Char → List String
  | [], acc => [⟨acc.reverse⟩]
  | c :: cs, acc =>
    if c = ',' then ⟨acc.reverse⟩ :: splitComma cs [] else splitComma cs (c :: acc)

/-- Value of the longest leading run of decimal digits of a character
list, or `none` when that run is empty (the NaN case of `parseInt`). -/
def digitsVal (cs : List Char) : Option Nat :=
  let ds := cs.takeWhile Char.isDigit
  if ds.isEmpty then none
  else some (ds.foldl (fun acc c => acc * 10 + (c.toNat - '0'.toNat)) 0)

/-- Model of `Number.parseInt(s, 10)` (line 94): skip leading whitespace,
read an optional sign, then the longest leading run of decimal digits;
`none` models NaN (no digits). The double-precision overflow of inputs
above 1.8e308 is not modelled; below it `Number.isFinite` is true on any
non-NaN `parseInt` result, so `isSome` models the line-103 finiteness
test. -/
def parseIntBase10 (s : String) : Option Int :=
  match s.data.dropWhile jsIsSpace with
  | '-' :: rest => (digitsVal rest).map (fun n => -(n : Int))
  | '+' :: rest => (digitsVal rest).map (fun n => (n : Int))
  | cs => (digitsVal cs).map (fun n => (n : Int))

/-- The `max_total` value sent to the transport (line 103):
`Number.isFinite(maxTotalNumber) && maxTotalNumber > 0 ? maxTotalNumber : 10`. -/
def maxTotalSent (s : String) : Int :=
  match parseIntBase10 s with
  | some n => if n > 0 then n else 10
  | none => 10

/-- The preferred-brands list (lines 90-93): split on commas, trim each
item, drop the falsy (empty) ones. -/
def splitPreferredBrands (s : String) : List String :=
  ((splitComma s.data []).map jsTrim).filter (fun x => x ≠ "")

/-- The request body built by `handleRun` (lines 98-106) for
`POST /discovery/run` (`OsukaRunRequest` in `osuka.ts`). -/
structure OsukaRunRequest where
  category : String
  market : Option String
  allow_external_brands : Bool
  prefer_pdfs : Bool
  max_total : Int
  max_shopee_products : Int
  preferred_brands : Option (List String)
  deriving DecidableEq, Repr

/-- The request `handleRun` passes to `osukaApi.run` (lines 98-106), built
from the current form state. -/
def buildRequest (s : PageState) : OsukaRunRequest :=
  let preferredList := splitPreferredBrands s.preferredBrands
  { category := jsTrim s.category
    market := if jsTrim s.market = "" then none else some (jsTrim s.market)
    allow_external_brands := s.allowExternal
    prefer_pdfs := s.preferPdfs
    max_total := maxTotalSent s.maxTotal
    max_shopee_products := 10
    preferred_brands := if preferredList.isEmpty then none else some preferredList }

/-- `handleRun` up to (and including) issuing the transport submit
(lines 79-106): an empty trimmed category bails out before any state
write and no submit is issued (`none`); otherwise `loading` is set, the
run state and status snapshot are reset, the two local log milestones are
recorded (lines 87 and 97), and the built request is handed to
`osukaApi.run` (`some request`). -/
def handleRunStart (s : PageState) : PageState × Option OsukaRunRequest :=
  if jsTrim s.category = "" then (s, none)
  else
    ({ s with loading := true
              runState := { response := none, error := none }
              localLogs := [logsStarting, logsRequestSent]
              runStatus := none },
     some (buildRequest s))

/-- The continuation of `handleRun` when the submit resolves with
`{run_id}` (lines 107-109) plus the `finally` of line 115: record the
run id, append the third local log milestone, clear `loading`. -/
def handleRunSuccess (s : PageState) (run_id : String) : PageState :=
  { s with runId := some run_id
           localLogs := s.localLogs ++ [logsResponseReceived]
           loading := false }

/-- The continuation of `handleRun` when the submit rejects
(lines 110-115): store the transport-derived message, clear `loading`;
`runId` stays null so no polling session ever starts. -/
def handleRunFailure (s : PageState) (err : Option String) : PageState :=
  { s with runState := { response := none, error := some (catchMessage err) }
           loading := false }

/-- Number of transport submit calls issued by two back-to-back direct
invocations of `handleRun` on the same form (the second entering while
the first is still before its `await`'s resolution). -/
def handleRunTwiceSubmitCount (s : PageState) : Nat :=
  let r1 := handleRunStart s
  let r2 := handleRunStart r1.1
  (if r1.2.isSome then 1 else 0) + (if r2.2.isSome then 1 else 0)

/-- The Run button (line 194) is rendered with `disabled={loading}`: a
click invokes `handleRun` only while `loading` is false. -/
def clickRun (s : PageState) : PageState × Option OsukaRunRequest :=
  if s.loading then (s, none) else handleRunStart s

/-- Number of transport submit calls issued by two rapid clicks of the
Run button. -/
def clickRunTwiceSubmitCount (s : PageState) : Nat :=
  let r1 := clickRun s
  let r2 := clickRun r1.1
  (if r1.2.isSome then 1 else 0) + (if r2.2.isSome then 1 else 0)

/-- The remote half of the rendered log list (lines 286-288):
`runStatus?.logs` or nothing. -/
def remoteLogs (runStatus : Option OsukaRunStatusResponse) : List String :=
  match runStatus with
  | some st => st.logs
  | none => []

/-- The rendered log list (lines 282-289): the local entries in order,
then the latest status response's entries in order. -/
def mergedLogs (s : PageState) : List String :=
  s.localLogs ++ remoteLogs s.runStatus

/-- What the effect body of lines 38-77 installs for a given `runId`:
whether an immediate check is issued (the bare `poll()` of line 71) and
the interval cadence in milliseconds (line 70). -/
structure SessionStart where
  immediateCheck : Bool
  intervalMs : Nat
  deriving DecidableEq, Repr

/-- The effect body (lines 38-77): with no `runId` it returns early and
installs nothing; with a `runId` it schedules `setInterval(poll, 2000)`
and issues an immediate `poll()`. -/
def effectRun : Option String → Option SessionStart
  | none => none
  | some _ => some { immediateCheck := true, intervalMs := 2000 }

/-- Time (ms after session start) at which the n-th status check of a
session is issued: check 0 is the immediate `poll()` at time 0, check
n+1 happens when the interval fires for the (n+1)-th time. -/
def checkTime (st : SessionStart) : Nat → Nat
  | 0 => 0
  | n + 1 => st.intervalMs * (n + 1)

/-- The persisted flags of `useNotebookColumnsStore`
(`notebook-columns-store.ts` lines 4-14). -/
structure NotebookColumnsState where
  sourcesCollapsed : Bool
  notesCollapsed : Bool
  marketCollapsed : Bool
  deriving DecidableEq, Repr

/-- `toggleSources` (store line 22). -/
def toggleSources (s : NotebookColumnsState) : NotebookColumnsState :=
  { s with sourcesCollapsed := !s.sourcesCollapsed }

/-- `toggleNotes` (store line 23). -/
def toggleNotes (s : NotebookColumnsState) : NotebookColumnsState :=
  { s with notesCollapsed := !s.notesCollapsed }

/-- `toggleMarket` (store line 24). -/
def toggleMarket (s : NotebookColumnsState) : NotebookColumnsState :=
  { s with marketCollapsed := !s.marketCollapsed }

/-- `setSources` (store line 25). -/
def setSources (s : NotebookColumnsState) (collapsed : Bool) : NotebookColumnsState :=
  { s with sourcesCollapsed := collapsed }

/-- `setNotes` (store line 26). -/
def setNotes (s : NotebookColumnsState) (collapsed : Bool) : NotebookColumnsState :=
  { s with notesCollapsed := collapsed }

/-- `setMarket` (store line 27). -/
def setMarket (s : NotebookColumnsState) (collapsed : Bool) : NotebookColumnsState :=
  { s with marketCollapsed := collapsed }

/-- A page mid-polling: submission for category "shoes" succeeded and run
"r1" is being polled. -/
def pollingPage : PageState :=
  { initialPage with
      category := "shoes"
      runId := some "r1"
      localLogs := [logsStarting, logsRequestSent, logsResponseReceived] }

/-- An active polling session over `pollingPage`. -/
def pollingTracker : TrackerState :=
  { page := pollingPage, cancelled := false, intervalActive := true }

/-- The same session after its effect cleanup ran (cancelled, interval
cleared) while a status request was still in flight. -/
def cancelledTracker : TrackerState :=
  { page := pollingPage, cancelled := true, intervalActive := false }

/-- A `running` status payload for run "r1". -/
def runningStatus : OsukaRunStatusResponse :=
  { run_id := "r1", status := "running", logs := ["queued"], result := none, error := none }

/-- A status payload with an unrecognized status string. -/
def weirdStatus : OsukaRunStatusResponse :=
  { run_id := "r1", status := "queued-for-gpu", logs := [], result := none, error := none }

/-- A `completed` status payload whose `result` field is absent. -/
def completedNoResult : OsukaRunStatusResponse :=
  { run_id := "r1", status := "completed", logs := [], result := none, error := none }

/-- The idle page with a non-empty category, ready to submit. -/
def reentrantReadyPage : PageState := { initialPage with category := "shoes" }

/-- A page with the spec's example log split: local `["started","sent"]`,
latest remote `["queued","done"]`. -/
def mergedExamplePage : PageState :=
  { initialPage with
      localLogs := ["started", "sent"]
      runStatus := some
        { run_id := "r1", status := "running", logs := ["queued", "done"]
          result := none, error := none } }

/-- The idle page with the max-total field set to "7". -/
def pageMaxSeven : PageState := { initialPage with maxTotal := "7" }

/-- What `effectRun` installs for any non-null `runId`. -/
def installedSession : SessionStart := { immediateCheck := true, intervalMs := 2000 }

/-- Every phase rank is at most the terminal rank 3. -/
theorem phaseRank_le_three (p : Phase) : phaseRank p ≤ 3 := by
  cases p <;> simp [phaseRank]

/-- A cancelled session ignores a resolving status fetch (line 47). -/
theorem applyOk_cancelled (ts : TrackerState) (status : OsukaRunStatusResponse)
    (hc : ts.cancelled = true) : applyOk ts status = ts := by
  simp [applyOk, hc]

/-- A cancelled session ignores a rejecting status fetch (line 62). -/
theorem applyErr_cancelled (ts : TrackerState) (err : Option String)
    (hc : ts.cancelled = true) : applyErr ts err = ts := by
  simp [applyErr, hc]

/-- The `completed && result` branch of `poll` (lines 51-55). -/
theorem applyOk_completed (ts : TrackerState) (status : OsukaRunStatusResponse)
    (hc : ts.cancelled = false) (h1 : status.status = "completed")
    (h2 : status.result.isSome = true) :
    applyOk ts status =
      { page := { ts.page with
                    runStatus := some status
                    runState := { response := status.result, error := none }
                    runId := none }
        cancelled := true
        intervalActive := false } := by
  simp [applyOk, reconcile, hc, h1, h2]

/-- The `failed` branch of `poll` (lines 56-60). -/
theorem applyOk_failed (ts : TrackerState) (status : OsukaRunStatusResponse)
    (hc : ts.cancelled = false) (h1 : status.status = "failed") :
    applyOk ts status =
      { page := { ts.page with
                    runStatus := some status
                    runState := { response := none
                                  error := some (jsOrString status.error commonError) }
                    runId := none }
        cancelled := true
        intervalActive := false } := by
  simp [applyOk, reconcile, hc, h1]

/-- The fall-through of `poll` on a non-terminal payload: only the
snapshot is refreshed. -/
theorem applyOk_continue (ts : TrackerState) (status : OsukaRunStatusResponse)
    (hc : ts.cancelled = false)
    (h1 : ¬(status.status = "completed" ∧ status.result.isSome = true))
    (h2 : status.status ≠ "failed") :
    applyOk ts status = { ts with page := { ts.page with runStatus := some status } } := by
  simp [applyOk, hc, h2]
  intro hcs hrs
  exact absurd ⟨hcs, hrs⟩ h1

/-- The `catch` branch of `poll` in an uncancelled session (lines 61-67). -/
theorem applyErr_uncancelled (ts : TrackerState) (err : Option String)
    (hc : ts.cancelled = false) :
    applyErr ts err =
      { page := { ts.page with
                    runState := { response := none, error := some (catchMessage err) }
                    runId := none }
        cancelled := true
        intervalActive := false } := by
  simp [applyErr, reconcile, hc]

/-- A trace over an appended event list factors through its first part. -/
theorem runTrace_append (ts : TrackerState) (es fs : List PollEvent) :
    runTrace ts (es ++ fs) = runTrace (runTrace ts es) fs := by
  simp [runTrace, List.foldl_append]

/-- One step preserves the session invariant, never lowers the phase rank,
and leaves a terminal page untouched. -/
theorem step_inv_mono (ts : TrackerState) (e : PollEvent) (h : SessionInv ts) :
    SessionInv (step ts e)
    ∧ phaseRank (phaseOf ts.page) ≤ phaseRank (phaseOf (step ts e).page)
    ∧ (isTerminal ts.page = true → (step ts e).page = ts.page) := by
  cases e with
  | cleanup =>
    refine ⟨?_, le_refl _, fun _ => rfl⟩
    intro hterm
    exact ⟨rfl, rfl, (h hterm).2.2⟩
  | ok status =>
    by_cases hc : ts.cancelled = true
    · rw [show step ts (.ok status) = ts from applyOk_cancelled ts status hc]
      exact ⟨h, le_refl _, fun _ => rfl⟩
    · have hc2 : ts.cancelled = false := by simpa using hc
      have hnc : ¬ isTerminal ts.page = true := fun hterm => hc (h hterm).1
      by_cases h1 : status.status = "completed" ∧ status.result.isSome = true
      · rw [show step ts (.ok status) = _ from applyOk_completed ts status hc2 h1.1 h1.2]
        refine ⟨fun _ => ⟨rfl, rfl, rfl⟩, ?_, fun hterm => absurd hterm hnc⟩
        have hph : phaseOf { ts.page with
            runStatus := some status
            runState := { response := status.result, error := none }
            runId := none } = Phase.completed := by
          simp [phaseOf, h1.2]
        rw [hph]
        exact phaseRank_le_three _
      · by_cases h2 : status.status = "failed"
        · rw [show step ts (.ok status) = _ from applyOk_failed ts status hc2 h2]
          refine ⟨fun _ => ⟨rfl, rfl, rfl⟩, ?_, fun hterm => absurd hterm hnc⟩
          have hph : phaseOf { ts.page with
              runStatus := some status
              runState := { response := none
                            error := some (jsOrString status.error commonError) }
              runId := none } = Phase.failed := by
            simp [phaseOf]
          rw [hph]
          exact phaseRank_le_three _
        · rw [show step ts (.ok status) = _ from applyOk_continue ts status hc2 h1 h2]
          exact ⟨fun hterm => absurd hterm hnc, le_refl _, fun hterm => absurd hterm hnc⟩
  | err msg =>
    by_cases hc : ts.cancelled = true
    · rw [show step ts (.err msg) = ts from applyErr_cancelled ts msg hc]
      exact ⟨h, le_refl _, fun _ => rfl⟩
    · have hc2 : ts.cancelled = false := by simpa using hc
      have hnc : ¬ isTerminal ts.page = true := fun hterm => hc (h hterm).1
      rw [show step ts (.err msg) = _ from applyErr_uncancelled ts msg hc2]
      refine ⟨fun _ => ⟨rfl, rfl, rfl⟩, ?_, fun hterm => absurd hterm hnc⟩
      have hph : phaseOf { ts.page with
          runState := { response := none, error := some (catchMessage msg) }
          runId := none } = Phase.failed := by
        simp [phaseOf]
      rw [hph]
      exact phaseRank_le_three _

/-- A whole trace preserves the session invariant. -/
theorem trace_inv (ts : TrackerState) (es : List PollEvent) (h : SessionInv ts) :
    SessionInv (runTrace ts es) := by
  induction es generalizing ts with
  | nil => exact h
  | cons e es ih => exact ih (step ts e) (step_inv_mono ts e h).1

/-- A whole trace never lowers the phase rank and leaves a terminal page
untouched. -/
theorem trace_mono_absorbing (ts : TrackerState) (es : List PollEvent) (h : SessionInv ts) :
    phaseRank (phaseOf ts.page) ≤ phaseRank (phaseOf (runTrace ts es).page)
    ∧ (isTerminal ts.page = true → (runTrace ts es).page = ts.page) := by
  induction es generalizing ts with
  | nil => exact ⟨le_refl _, fun _ => rfl⟩
  | cons e es ih =>
    have hstep := step_inv_mono ts e h
    have hrest := ih (step ts e) hstep.1
    refine ⟨le_trans hstep.2.1 hrest.1, ?_⟩
    intro hterm
    have hpage := hstep.2.2 hterm
    have hterm2 : isTerminal (step ts e).page = true := by rw [hpage]; exact hterm
    calc (runTrace (step ts e) es).page = (step ts e).page := hrest.2 hterm2
      _ = ts.page := hpage

/-- C1: over any polling-session trace whose start satisfies the session
invariant, the invariant is preserved (once terminal, the cancellation
flag is set, the interval is cleared and `runId` is null, so no
subsequent tick mutates the state), the observed phase sequence is
non-decreasing step by step in the order idle < submitting < polling <
{completed, failed}, and once the page is terminal no further applied
status or tick changes it, so at most one terminal transition ever
occurs. -/
theorem run_monotonic_terminal_absorbing (ts : TrackerState) (es : List PollEvent)
    (h : SessionInv ts) :
    SessionInv (runTrace ts es)
    ∧ (∀ n : Nat, phaseRank (phaseOf (runTrace ts (es.take n)).page)
        ≤ phaseRank (phaseOf (runTrace ts (es.take (n + 1))).page))
    ∧ phaseRank (phaseOf ts.page) ≤ phaseRank (phaseOf (runTrace ts es).page)
    ∧ (isTerminal ts.page = true → (runTrace ts es).page = ts.page) := by
  refine ⟨trace_inv ts es h, ?_, (trace_mono_absorbing ts es h).1,
    (trace_mono_absorbing ts es h).2⟩
  intro n
  by_cases hn : n < es.length
  · have htake : es.take (n + 1) = es.take n ++ [es.get ⟨n, hn⟩] := by
      rw [List.take_succ]
      congr 1
      simp [List.getElem?_eq_getElem hn, List.get_eq_getElem]
    rw [htake, runTrace_append]
    have hinv := trace_inv ts (es.take n) h
    have hone := step_inv_mono (runTrace ts (es.take n)) (es.get ⟨n, hn⟩) hinv
    simpa [runTrace] using hone.2.1
  · have hge : es.length ≤ n := le_of_not_lt hn
    rw [List.take_of_length_le hge, List.take_of_length_le (le_trans hge (Nat.le_succ n))]

/-- Witness for C1 at a concrete session: polling run "r1" receives a
`running` payload and is then torn down. -/
theorem run_monotonic_witness :
    SessionInv (runTrace pollingTracker [.ok runningStatus, .cleanup])
    ∧ (∀ n : Nat, phaseRank (phaseOf
          (runTrace pollingTracker (([PollEvent.ok runningStatus, .cleanup]).take n)).page)
        ≤ phaseRank (phaseOf
          (runTrace pollingTracker (([PollEvent.ok runningStatus, .cleanup]).take (n + 1))).page))
    ∧ phaseRank (phaseOf pollingTracker.page)
        ≤ phaseRank (phaseOf (runTrace pollingTracker [.ok runningStatus, .cleanup]).page)
    ∧ (isTerminal pollingTracker.page = true →
        (runTrace pollingTracker [.ok runningStatus, .cleanup]).page = pollingTracker.page) :=
  run_monotonic_terminal_absorbing pollingTracker [.ok runningStatus, .cleanup]
    (fun hterm => absurd hterm (by decide))

/-- C2: once the session's cancellation flag is set (the effect cleanup
ran), a status request that later resolves - successfully or with an
error - changes nothing: `runStatus`, `runState`, `runId`, the flag and
the interval are all exactly as before, and no further tick is
scheduled. -/
theorem cancellation_discards_late_responses (ts : TrackerState)
    (h : ts.cancelled = true) (status : OsukaRunStatusResponse) (msg : Option String) :
    step ts (.ok status) = ts ∧ step ts (.err msg) = ts :=
  ⟨applyOk_cancelled ts status h, applyErr_cancelled ts msg h⟩

/-- Witness for C2: the torn-down session over run "r1" ignores both a
resolving and a rejecting late response. -/
theorem cancellation_discards_witness :
    step cancelledTracker (.ok runningStatus) = cancelledTracker
    ∧ step cancelledTracker (.err (some "boom")) = cancelledTracker :=
  cancellation_discards_late_responses cancelledTracker rfl runningStatus (some "boom")

/-- C4: in an uncancelled session, a status fetch that throws moves the
run to failed - the stored message is the thrown `Error`'s message, or
the generic fallback when the thrown value is not an `Error` - and the
session stops for good: `runId` is cleared, the flag is set and the
interval is cleared, so no retry or further fetch happens. -/
theorem polling_transport_error_fatal (ts : TrackerState) (err : Option String)
    (h : ts.cancelled = false) :
    (step ts (.err err)).page.runState.response = none
    ∧ (step ts (.err err)).page.runState.error = some (catchMessage err)
    ∧ (∀ m, err = some m → catchMessage err = m)
    ∧ (err = none → catchMessage err = commonError)
    ∧ phaseOf (step ts (.err err)).page = Phase.failed
    ∧ (step ts (.err err)).page.runId = none
    ∧ (step ts (.err err)).cancelled = true
    ∧ (step ts (.err err)).intervalActive = false := by
  rw [show step ts (.err err) = _ from applyErr_uncancelled ts err h]
  refine ⟨rfl, rfl, ?_, ?_, ?_, rfl, rfl, rfl⟩
  · intro m hm; rw [hm]; rfl
  · intro hm; rw [hm]; rfl
  · simp [phaseOf]

/-- Witness for C4: the polling session over run "r1" hit by a thrown
network error. -/
theorem polling_transport_error_witness :
    (step pollingTracker (.err (some "network down"))).page.runState.error
        = some "network down"
    ∧ (step pollingTracker (.err (some "network down"))).page.runId = none
    ∧ (step pollingTracker (.err (some "network down"))).intervalActive = false :=
  have h := polling_transport_error_fatal pollingTracker (some "network down") rfl
  ⟨h.2.1, h.2.2.2.2.2.1, h.2.2.2.2.2.2.2⟩

/-- C5: a session started with a run identifier issues its first status
check immediately (time 0, before any interval elapses), and every later
check fires on the fixed 2000 ms cadence; with no identifier no session
is installed. -/
theorem immediate_check_then_fixed_cadence (id : String) :
    effectRun (some id) = some installedSession
    ∧ effectRun none = none
    ∧ installedSession.immediateCheck = true
    ∧ installedSession.intervalMs = 2000
    ∧ checkTime installedSession 0 = 0
    ∧ ∀ n, checkTime installedSession (n + 1) = checkTime installedSession n + 2000 := by
  refine ⟨rfl, rfl, rfl, rfl, rfl, ?_⟩
  intro n
  cases n with
  | zero => rfl
  | succ m => simp [checkTime, installedSession]; ring

/-- C6: in an uncancelled session, a payload whose status string is
neither "completed" nor "failed" (any unrecognized value included) only
refreshes the snapshot: `runState` and `runId` are untouched, the page
stays non-terminal with the same phase, the flag stays clear and the
interval stays scheduled, so polling continues. -/
theorem unrecognized_status_continues (ts : TrackerState) (status : OsukaRunStatusResponse)
    (hc : ts.cancelled = false)
    (h1 : status.status ≠ "completed") (h2 : status.status ≠ "failed") :
    step ts (.ok status) = { ts with page := { ts.page with runStatus := some status } }
    ∧ (step ts (.ok status)).page.runState = ts.page.runState
    ∧ (step ts (.ok status)).page.runId = ts.page.runId
    ∧ isTerminal (step ts (.ok status)).page = isTerminal ts.page
    ∧ phaseOf (step ts (.ok status)).page = phaseOf ts.page
    ∧ (step ts (.ok status)).cancelled = false
    ∧ (step ts (.ok status)).intervalActive = ts.intervalActive := by
  have heq := applyOk_continue ts status hc (fun hcr => h1 hcr.1) h2
  rw [show step ts (.ok status) = _ from heq]
  exact ⟨rfl, rfl, rfl, rfl, rfl, hc, rfl⟩

/-- Witness for C6: the polling session over run "r1" receiving the
unrecognized status "queued-for-gpu". -/
theorem unrecognized_status_witness :
    step pollingTracker (.ok weirdStatus)
      = { pollingTracker with
            page := { pollingTracker.page with runStatus := some weirdStatus } }
    ∧ (step pollingTracker (.ok weirdStatus)).page.runId = pollingTracker.page.runId :=
  have h := unrecognized_status_continues pollingTracker weirdStatus rfl
    (by decide) (by decide)
  ⟨h.1, h.2.2.1⟩

/-- C9: in an uncancelled session, a payload with status "completed" but
no `result` is not treated as terminal: only the snapshot is refreshed,
`runState` stores no result, `runId` stays set, and the session keeps
its flag clear and its interval scheduled, so polling continues. -/
theorem completed_without_result_not_terminal (ts : TrackerState)
    (status : OsukaRunStatusResponse)
    (hc : ts.cancelled = false) (h1 : status.status = "completed")
    (h2 : status.result = none) :
    step ts (.ok status) = { ts with page := { ts.page with runStatus := some status } }
    ∧ (step ts (.ok status)).page.runState = ts.page.runState
    ∧ (step ts (.ok status)).page.runId = ts.page.runId
    ∧ isTerminal (step ts (.ok status)).page = isTerminal ts.page
    ∧ (step ts (.ok status)).cancelled = false
    ∧ (step ts (.ok status)).intervalActive = ts.intervalActive := by
  have h1n : ¬(status.status = "completed" ∧ status.result.isSome = true) := by
    rintro ⟨-, hr⟩
    rw [h2] at hr
    exact absurd hr (by decide)
  have h2n : status.status ≠ "failed" := by rw [h1]; decide
  have heq := applyOk_continue ts status hc h1n h2n
  rw [show step ts (.ok status) = _ from heq]
  exact ⟨rfl, rfl, rfl, rfl, hc, rfl⟩

/-- Witness for C9: the polling session over run "r1" receiving
`{status: "completed"}` with no result payload. -/
theorem completed_without_result_witness :
    step pollingTracker (.ok completedNoResult)
      = { pollingTracker with
            page := { pollingTracker.page with runStatus := some completedNoResult } }
    ∧ (step pollingTracker (.ok completedNoResult)).page.runId
        = pollingTracker.page.runId :=
  have h := completed_without_result_not_terminal pollingTracker completedNoResult
    rfl rfl rfl
  ⟨h.1, h.2.2.1⟩

/-- C3 counterexample: `handleRun` itself carries no reentrancy guard.
From the ready page, the first direct call enters the submitting phase
(`loading` becomes true) and a second direct call before the first
resolves still issues a transport submit, so two back-to-back calls
issue two submits, not one. -/
theorem handleRun_reentrant_double_submit :
    (handleRunStart reentrantReadyPage).1.loading = true
    ∧ ((handleRunStart (handleRunStart reentrantReadyPage).1).2).isSome = true
    ∧ handleRunTwiceSubmitCount reentrantReadyPage = 2 := by
  decide

/-- C3 (amended): the duplicate-submission guard lives on the Run button,
rendered with `disabled={loading}`: while `loading` is false and the
category is non-empty, two rapid clicks invoke `handleRun` once and
issue exactly one transport submit, the second click being ignored. -/
theorem button_guard_single_submit (s : PageState)
    (h1 : s.loading = false) (h2 : jsTrim s.category ≠ "") :
    clickRunTwiceSubmitCount s = 1
    ∧ (clickRun s).1.loading = true
    ∧ (clickRun (clickRun s).1).2 = none := by
  refine ⟨?_, ?_, ?_⟩ <;>
    simp [clickRunTwiceSubmitCount, clickRun, handleRunStart, h1, h2]

/-- Witness for the amended C3 at the ready page. -/
theorem button_guard_witness : clickRunTwiceSubmitCount reentrantReadyPage = 1 :=
  (button_guard_single_submit reentrantReadyPage rfl (by decide)).1

/-- C7: the rendered log list is exactly the local entries, in the order
the submission milestones appended them, followed by the latest status
response's entries in server order, with no deduplication or
interleaving; on the spec's example split the merge is
`["started", "sent", "queued", "done"]`. -/
theorem merged_logs_concatenation :
    (∀ s : PageState, mergedLogs s = s.localLogs ++ remoteLogs s.runStatus)
    ∧ (∀ (s : PageState) (rid : String), jsTrim s.category ≠ "" →
        (handleRunSuccess (handleRunStart s).1 rid).localLogs
          = [logsStarting, logsRequestSent, logsResponseReceived])
    ∧ (∀ s : PageState, s.localLogs = ["started", "sent"] →
        remoteLogs s.runStatus = ["queued", "done"] →
        mergedLogs s = ["started", "sent", "queued", "done"]) := by
  refine ⟨fun s => rfl, ?_, ?_⟩
  · intro s rid hcat
    simp [handleRunSuccess, handleRunStart, hcat]
  · intro s hl hr
    simp [mergedLogs, hl, hr]

/-- Witness for C7 at the spec's example page. -/
theorem merged_logs_witness :
    mergedLogs mergedExamplePage = ["started", "sent", "queued", "done"] :=
  merged_logs_concatenation.2.2 mergedExamplePage rfl rfl

/-- C8: the `max_total` field of every submitted request is a positive
integer: a parse to a finite positive value is sent as-is, and every
other input - empty, non-numeric, zero, negative - falls back to the
default 10. -/
theorem max_total_positive_default (s : PageState) :
    0 < (buildRequest s).max_total
    ∧ (buildRequest s).max_total = maxTotalSent s.maxTotal
    ∧ (∀ n : Int, parseIntBase10 s.maxTotal = some n → 0 < n →
        (buildRequest s).max_total = n)
    ∧ (parseIntBase10 s.maxTotal = none → (buildRequest s).max_total = 10)
    ∧ (∀ n : Int, parseIntBase10 s.maxTotal = some n → n ≤ 0 →
        (buildRequest s).max_total = 10)
    ∧ maxTotalSent "" = 10 ∧ maxTotalSent "abc" = 10
    ∧ maxTotalSent "0" = 10 ∧ maxTotalSent "-3" = 10 := by
  have hb : (buildRequest s).max_total = maxTotalSent s.maxTotal := rfl
  have hpos : 0 < maxTotalSent s.maxTotal := by
    unfold maxTotalSent
    cases h : parseIntBase10 s.maxTotal with
    | none => norm_num
    | some n =>
      by_cases hn : n > 0
      · simp [hn]
      · simp [hn]
  refine ⟨hb ▸ hpos, hb, ?_, ?_, ?_, by decide, by decide, by decide, by decide⟩
  · intro n hn hgt
    rw [hb]
    unfold maxTotalSent
    rw [hn]
    simp [hgt]
  · intro hn
    rw [hb]
    unfold maxTotalSent
    rw [hn]
  · intro n hn hle
    rw [hb]
    unfold maxTotalSent
    rw [hn]
    simp [not_lt.mpr hle]

/-- Witness for C8: with the field set to "7" the request carries 7, and
it is positive. -/
theorem max_total_witness :
    0 < (buildRequest pageMaxSeven).max_total ∧ (buildRequest pageMaxSeven).max_total = 7 :=
  ⟨(max_total_positive_default pageMaxSeven).1,
   (max_total_positive_default pageMaxSeven).2.2.1 7 (by decide) (by decide)⟩

/-- C10: every notebook-columns operation touches only its own flag - the
market operations leave the sources and notes flags unchanged, and
symmetrically for the sources and notes operations - and each toggle is
an involution. -/
theorem notebook_columns_frame (s : NotebookColumnsState) (b : Bool) :
    ((toggleMarket s).sourcesCollapsed = s.sourcesCollapsed
      ∧ (toggleMarket s).notesCollapsed = s.notesCollapsed)
    ∧ ((setMarket s b).sourcesCollapsed = s.sourcesCollapsed
      ∧ (setMarket s b).notesCollapsed = s.notesCollapsed)
    ∧ ((toggleSources s).notesCollapsed = s.notesCollapsed
      ∧ (toggleSources s).marketCollapsed = s.marketCollapsed)
    ∧ ((setSources s b).notesCollapsed = s.notesCollapsed
      ∧ (setSources s b).marketCollapsed = s.marketCollapsed)
    ∧ ((toggleNotes s).sourcesCollapsed = s.sourcesCollapsed
      ∧ (toggleNotes s).marketCollapsed = s.marketCollapsed)
    ∧ ((setNotes s b).sourcesCollapsed = s.sourcesCollapsed
      ∧ (setNotes s b).marketCollapsed = s.marketCollapsed)
    ∧ toggleMarket (toggleMarket s) = s
    ∧ toggleSources (toggleSources s) = s
    ∧ toggleNotes (toggleNotes s) = s := by
  cases s
  simp [toggleMarket, toggleSources, toggleNotes, setMarket, setSources, setNotes]

end Osuka
